import Mathlib

/-!
Verification of the crypto-trading-bot decision engine.

This file gives a shallow embedding of the core risk-management and
adaptive-strategy subsystem of the repository:

* `src/enhanced_risk_manager.py` — the `Position` dataclass and the
  `EnhancedRiskManager` class (position sizing, Kelly sizing, stop-loss /
  take-profit planning, trailing stops, circuit breaker, entry gating);
* `src/adaptive_strategy.py` — the `AdaptiveStrategyEngine` class (market
  regime detection, regime-driven weight adaptation, ensemble signal
  generation).

Modelling conventions:

* Exact Python-`float` arithmetic on the risk-manager side is embedded over
  `ℚ` (every operation there is field arithmetic and comparisons), so the
  concrete theorems can be checked by `decide`.  The strategy engine and the
  dynamic position sizer use a real square root (`** 0.5`, `np.std`), so they
  are embedded over `ℝ`; the manager's rational fields are coerced where the
  Python code reads them.
* pandas reads are embedded at the granularity the code performs them:
  a DataFrame is a record of optional columns (a missing column raises
  `KeyError` in Python; `Option` marks presence), each column a list of
  scalars, newest last.  `iloc[-1]` / `iloc[-2]` on a too-short column raise
  `IndexError`.  A `rolling(20).mean().iloc[-1]` over fewer than 20 rows is
  NaN in pandas and every comparison with it is `False`; those reads are
  modelled as `Option` values with the comparison sites spelling out the
  NaN branch that the code actually takes.
* Python exceptions are modelled with `Except PyExn`; a `try/except`
  boundary is a `match` on that value.
* `datetime.now()` is passed in explicitly as a rational timestamp measured
  in hours, so `timedelta(hours=h)` is `+ h`.
-/

namespace TradingBot

/-- Python exception values relevant to the embedded code paths. -/
inductive PyExn where
  /-- `df['col']` on a missing column. -/
  | keyError : PyExn
  /-- `iloc[-1]` / `iloc[-2]` on a too-short series. -/
  | indexError : PyExn
  /-- comparing a complex number (from `(negative) ** 0.5`) with a float. -/
  | typeError : PyExn
deriving Repr, DecidableEq

/-- Last element of a list, `iloc[-1]`; `none` when the series is empty
(Python raises `IndexError`). -/
def ilocNeg1 {α : Type} (l : List α) : Option α := l.getLast?

/-- Second-to-last element, `iloc[-2]`; `none` when fewer than two rows. -/
def ilocNeg2 {α : Type} (l : List α) : Option α :=
  match l.reverse with
  | _ :: x :: _ => some x
  | _ => none

/-- The last `n` elements of a list (`l[-n:]` in Python). -/
def takeLast {α : Type} (n : Nat) (l : List α) : List α :=
  l.drop (l.length - n)

/-! ## `src/enhanced_risk_manager.py`: data model -/

/-- The `Position` dataclass (`enhanced_risk_manager.py` lines 16-47).
`entry_time` is omitted (never read by the embedded operations);
`lowest_price` is initialised to `float('inf')` in Python, which the caller
of this model supplies explicitly. -/
structure Position where
  symbol : String
  side : String
  entryPrice : ℚ
  size : ℚ
  stopLoss : ℚ
  takeProfit : List ℚ
  unrealizedPnl : ℚ := 0
  realizedPnl : ℚ := 0
  trailingStopActive : Bool := false
  highestPrice : ℚ := 0
  lowestPrice : ℚ := 0
deriving Repr, DecidableEq

/-- `Position.get_pnl_pct` (lines 43-47).  Note: Python would raise
`ZeroDivisionError` for `entry_price ≠ 0 ∧ size = 0`; this model follows
the field convention `x / 0 = 0` there (no claim touches that corner). -/
def Position.get_pnl_pct (p : Position) : ℚ :=
  if p.entryPrice = 0 then 0
  else p.unrealizedPnl / (p.entryPrice * p.size) * 100

/-- The mutable state of `EnhancedRiskManager` (lines 66-118) together with
its constructor parameters.  `day_start_date` and `trade_history` are
carried nowhere by the embedded operations and are omitted. -/
structure RiskManager where
  initialCapital : ℚ
  currentCapital : ℚ
  peakCapital : ℚ
  dailyStartCapital : ℚ
  maxPositionSizePct : ℚ := 10
  maxDailyLossPct : ℚ := 5
  maxDrawdownPct : ℚ := 20
  useKellyCriterion : Bool := true
  kellyFraction : ℚ := 1/4
  enableTrailingStop : Bool := true
  trailingStopPct : ℚ := 1
  positions : List (String × Position) := []
  closedPositions : List Position := []
  circuitBreakerActive : Bool := false
  circuitBreakerUntil : Option ℚ := none
deriving Repr, DecidableEq

/-- `get_daily_pnl_pct` (lines 504-508). -/
def get_daily_pnl_pct (m : RiskManager) : ℚ :=
  if m.dailyStartCapital = 0 then 0
  else (m.currentCapital - m.dailyStartCapital) / m.dailyStartCapital * 100

/-- `get_current_drawdown_pct` (lines 510-514). -/
def get_current_drawdown_pct (m : RiskManager) : ℚ :=
  if m.peakCapital = 0 then 0
  else (m.peakCapital - m.currentCapital) / m.peakCapital * 100

/-- `calculate_fixed_position_size` (lines 221-223). -/
def calculate_fixed_position_size (m : RiskManager) : ℚ :=
  m.currentCapital * (m.maxPositionSizePct / 100)

/-- `calculate_win_statistics` (lines 516-533): `(win_rate, avg_win, avg_loss)`.
`np.mean` of a nonempty list is its arithmetic mean. -/
def calculate_win_statistics (m : RiskManager) : ℚ × ℚ × ℚ :=
  if m.closedPositions.isEmpty then (1/2, 0, 0)
  else
    let wins := (m.closedPositions.filter (fun p => 0 < p.realizedPnl)).map Position.realizedPnl
    let losses := (m.closedPositions.filter (fun p => p.realizedPnl < 0)).map (fun p => |p.realizedPnl|)
    ((wins.length : ℚ) / (m.closedPositions.length : ℚ),
     if wins.isEmpty then 0 else wins.sum / (wins.length : ℚ),
     if losses.isEmpty then 0 else losses.sum / (losses.length : ℚ))

/-- `calculate_kelly_position_size` (lines 178-219).

The guard covers `avg_loss == 0 or win_rate == 0`.  When `avg_win = 0`
(with nonzero `avg_loss` and `win_rate`), `win_loss_ratio` is `0` and the
division `kelly_pct = (... ) / win_loss_ratio` is over `np.float64` values
(the caller feeds `np.mean` outputs), yielding `-inf` for `win_rate < 1`
and NaN for `win_rate = 1`; either way the final clamp
`max(1.0, min(kelly_pct * 100, max))` evaluates to `1.0` for the win rates
`≤ 1` that the caller can produce, which the second branch records. -/
def calculate_kelly_position_size (m : RiskManager)
    (win_rate avg_win avg_loss : ℚ) : ℚ :=
  if avg_loss = 0 ∨ win_rate = 0 then m.maxPositionSizePct / 2
  else if avg_win = 0 then 1
  else
    let win_loss_ratio := avg_win / avg_loss
    let kelly_pct := (win_loss_ratio * win_rate - (1 - win_rate)) / win_loss_ratio
    let kelly_pct := kelly_pct * m.kellyFraction
    max 1 (min (kelly_pct * 100) m.maxPositionSizePct)

/-! ## Circuit breaker and entry gating -/

/-- `activate_circuit_breaker` (lines 483-502).  The reason is only logged
in Python (not stored on the object); position closing is likewise only a
log line there. -/
def activate_circuit_breaker (m : RiskManager) (_reason : String)
    (now hours : ℚ) : RiskManager :=
  { m with circuitBreakerActive := true, circuitBreakerUntil := some (now + hours) }

/-- `check_circuit_breaker` (lines 445-481).  Returns the updated manager,
the boolean result, and — as an explicit observation of the
`activate_circuit_breaker(reason, hours)` call the code makes — the reason
and duration of a fresh activation, if any. -/
def check_circuit_breaker (m : RiskManager) (now : ℚ) :
    RiskManager × Bool × Option (String × ℚ) :=
  let checkLimits : RiskManager → RiskManager × Bool × Option (String × ℚ) := fun m =>
    if get_daily_pnl_pct m ≤ -m.maxDailyLossPct then
      (activate_circuit_breaker m "Daily loss limit reached" now 24, true,
        some ("Daily loss limit reached", 24))
    else if m.maxDrawdownPct ≤ get_current_drawdown_pct m then
      (activate_circuit_breaker m "Maximum drawdown reached" now 48, true,
        some ("Maximum drawdown reached", 48))
    else if 5 ≤ m.closedPositions.length ∧
        (takeLast 5 m.closedPositions).all (fun p => p.realizedPnl < 0) then
      (activate_circuit_breaker m "5 consecutive losses" now 12, true,
        some ("5 consecutive losses", 12))
    else (m, false, none)
  if m.circuitBreakerActive then
    match m.circuitBreakerUntil with
    | some t =>
      if t < now then
        checkLimits { m with circuitBreakerActive := false, circuitBreakerUntil := none }
      else (m, true, none)
    | none => (m, true, none)
  else checkLimits m

/-- `can_open_position` (lines 607-635).  The circuit-breaker check can
mutate the manager (activation or expiry), so the updated manager is
threaded through the later gates exactly as `self` is in Python. -/
def can_open_position (m : RiskManager) (symbol : String) (now : ℚ) :
    RiskManager × Bool × String :=
  let r := check_circuit_breaker m now
  let m1 := r.1
  if r.2.1 then (m1, false, "Circuit breaker active")
  else if get_daily_pnl_pct m1 ≤ -m1.maxDailyLossPct then
    (m1, false, "Daily loss limit reached")
  else if m1.maxDrawdownPct ≤ get_current_drawdown_pct m1 then
    (m1, false, "Maximum drawdown reached")
  else if (m1.positions.lookup symbol).isSome then
    (m1, false, "Position already open for this symbol")
  else if 5 ≤ m1.positions.length then
    (m1, false, "Maximum 5 positions already open")
  else (m1, true, "OK")

/-! ## Trailing stop -/

/-- The per-position body of `update_trailing_stop` (lines 410-443):
possible activation at ≥ 2% profit, then the monotone stop advance.
`current_price` is accepted and ignored exactly as in the source, which
reads only `highest_price` / `lowest_price` (maintained by
`Position.update_pnl`). -/
def trailing_step (m : RiskManager) (pos : Position) : Position × Option ℚ :=
  let pos := if ¬pos.trailingStopActive ∧ 2 ≤ pos.get_pnl_pct then
      { pos with trailingStopActive := true }
    else pos
  if pos.trailingStopActive then
    if pos.side = "long" then
      let new_stop := pos.highestPrice * (1 - m.trailingStopPct / 100)
      if pos.stopLoss < new_stop then
        ({ pos with stopLoss := new_stop }, some new_stop)
      else (pos, none)
    else
      let new_stop := pos.lowestPrice * (1 + m.trailingStopPct / 100)
      if new_stop < pos.stopLoss then
        ({ pos with stopLoss := new_stop }, some new_stop)
      else (pos, none)
  else (pos, none)

/-- `update_trailing_stop` (lines 392-443).  The guard is
`symbol not in self.positions or not self.enable_trailing_stop`. -/
def update_trailing_stop (m : RiskManager) (symbol : String)
    (_current_price : ℚ) : RiskManager × Option ℚ :=
  match m.positions.lookup symbol, m.enableTrailingStop with
  | some pos, true =>
    let pr := trailing_step m pos
    ({ m with positions :=
        m.positions.map (fun q => if q.1 = symbol then (q.1, pr.1) else q) },
     pr.2)
  | _, _ => (m, none)

/-! ## Stop-loss / take-profit planning and position sizing

These functions read the price DataFrame and, in
`calculate_dynamic_position_size`, compute `(signal_strength / 50) ** 0.5`,
a real square root; they are embedded over `ℝ`.  The columns these
functions touch are `close` and (optionally present) `atr`.  All scalars
read from a DataFrame are `np.float64` in Python, so divisions by zero
there produce `inf`/NaN rather than raising; the corners where that
matters are pointed out at the use sites. -/

/-- The slice of a pandas DataFrame read by the risk-manager sizing and
stop-planning code: the `close` column and the optional `atr` column. -/
structure PriceFrame where
  close : List ℝ
  atr : Option (List ℝ)

noncomputable section

/-- `calculate_stop_loss` (lines 310-350).  The `try` body can only raise
on `df['atr'].iloc[-1]` when the `atr` column is present but empty; the
`except` handler then returns the 2%-band fallback. -/
def calculate_stop_loss (entry_price : ℝ) (df : PriceFrame) (side : String) : ℝ :=
  match df.atr with
  | some l =>
    match ilocNeg1 l with
    | some atr =>
      let stop_distance := atr * 2
      let min_stop := entry_price * 0.01
      let max_stop := entry_price * 0.05
      let stop_distance := max min_stop (min stop_distance max_stop)
      if side = "long" then entry_price - stop_distance else entry_price + stop_distance
    | none =>
      -- IndexError, caught by the method's own handler
      if side = "long" then entry_price * 0.98 else entry_price * 1.02
  | none =>
    let stop_distance := entry_price * 0.02
    let min_stop := entry_price * 0.01
    let max_stop := entry_price * 0.05
    let stop_distance := max min_stop (min stop_distance max_stop)
    if side = "long" then entry_price - stop_distance else entry_price + stop_distance

/-- `calculate_take_profit_levels` (lines 352-390).  The body is pure
arithmetic and never raises; `[2, 3, 5][:levels]` is `List.take`. -/
def calculate_take_profit_levels (entry_price stop_loss : ℝ) (side : String)
    (levels : Nat := 3) : List ℝ :=
  let risk := |entry_price - stop_loss|
  let risk_multiples : List ℝ := ([2, 3, 5].take levels)
  risk_multiples.map (fun multiple =>
    if side = "long" then entry_price + risk * multiple
    else entry_price - risk * multiple)

/-- `AdvancedRiskManager.calculate_dynamic_take_profit`
(`advanced_risk_manager.py` lines 265-305), with the default
`risk_reward_ratio = 2.0` and `volatility_adjusted = True` carried as
arguments.  Targets are multiples of the *unclamped* `2 × ATR` distance. -/
def calculate_dynamic_take_profit (entry_price atr : ℝ)
    (risk_reward_ratio : ℝ := 2) (volatility_adjusted : Bool := true) : List ℝ :=
  let stop_distance := atr * 2
  let multipliers : List ℝ :=
    if volatility_adjusted then
      if atr / entry_price > 0.03 then [1.5, 2.5, 4] else [2, 3, 5]
    else [risk_reward_ratio, risk_reward_ratio * 1.5, risk_reward_ratio * 2]
  multipliers.map (fun mult => entry_price + stop_distance * mult)

/-- `calculate_position_size_volatility` (lines 120-176) with the default
`risk_per_trade_pct = 2.0` used by `calculate_dynamic_position_size`.
Every failure path (missing `atr` column, `IndexError` on an empty series
— caught by the method's own `try/except` — or a zero ATR/price guard)
returns `calculate_fixed_position_size`.  Note the source returns the
fixed size in quote currency on those paths without converting by price. -/
def calculate_position_size_volatility (m : RiskManager) (df : PriceFrame) : ℝ :=
  match df.atr with
  | none => (calculate_fixed_position_size m : ℝ)
  | some atrl =>
    match ilocNeg1 df.close, ilocNeg1 atrl with
    | some current_price, some atr =>
      if atr = 0 ∨ current_price = 0 then (calculate_fixed_position_size m : ℝ)
      else
        let risk_amount := (m.currentCapital : ℝ) * (2 / 100)
        let stop_distance := atr * 2
        let stop_distance_pct := stop_distance / current_price * 100
        let position_size_usd := risk_amount / (stop_distance_pct / 100)
        let position_size := position_size_usd / current_price
        let max_position_usd := (m.currentCapital : ℝ) * ((m.maxPositionSizePct : ℝ) / 100)
        if max_position_usd < position_size_usd then max_position_usd / current_price
        else position_size
    | _, _ => (calculate_fixed_position_size m : ℝ)

/-- The `try` body of `calculate_dynamic_position_size` (lines 225-304)
after the `current_price` read, for a non-negative `signal_strength`
(so that `(signal_strength / 50) ** 0.5` is the real square root).
If `max_position_size_pct = 0` while Kelly sizing is active, Python would
raise `ZeroDivisionError` on the plain-float division
`kelly_pct / self.max_position_size_pct`; the model's `x / 0 = 0`
convention diverges only on that configuration, which no claim touches. -/
def dynamic_position_size_val (m : RiskManager) (df : PriceFrame)
    (signal_strength signal_confidence current_price : ℝ) : ℝ :=
  let base_size := calculate_position_size_volatility m df
  let strength_multiplier := Real.sqrt (signal_strength / 50)
  let confidence_multiplier := 0.5 + signal_confidence * 0.5
  let dd_multiplier : ℝ :=
    if m.maxDrawdownPct / 2 < get_current_drawdown_pct m then 0.5 else 1
  let pnl_multiplier : ℝ :=
    if get_daily_pnl_pct m < -(m.maxDailyLossPct / 2) then 0.5
    else if m.maxDailyLossPct < get_daily_pnl_pct m then 1.2
    else 1
  let kelly_multiplier : ℝ :=
    if m.useKellyCriterion ∧ 10 ≤ m.closedPositions.length then
      let stats := calculate_win_statistics m
      (calculate_kelly_position_size m stats.1 stats.2.1 stats.2.2 : ℝ) /
        (m.maxPositionSizePct : ℝ)
    else 1
  let final_multiplier :=
    strength_multiplier * confidence_multiplier * dd_multiplier *
      pnl_multiplier * kelly_multiplier
  let position_size := base_size * final_multiplier
  let min_size := (m.currentCapital : ℝ) * 0.01 / current_price
  let max_size := (m.currentCapital : ℝ) * (m.maxPositionSizePct : ℝ) / 100 / current_price
  max min_size (min position_size max_size)

/-- `calculate_dynamic_position_size` (lines 225-308) with its outer
`try/except`.  The only statements of the body that can raise are:

* `df['close'].iloc[-1]` (missing or empty `close`): the `except` handler
  `return self.calculate_fixed_position_size() / df['close'].iloc[-1]`
  performs the same read and re-raises, so the exception escapes;
* a negative `signal_strength`, for which `(signal_strength / 50) ** 0.5`
  is a `complex` and the later `max(min_size, min(position_size, max_size))`
  raises `TypeError`; the handler then returns the fixed size divided by
  the last close.

All other reads are `np.float64` arithmetic (no raising divisions), and
the volatility and Kelly helpers catch their own exceptions. -/
def calculate_dynamic_position_size (m : RiskManager) (df : PriceFrame)
    (signal_strength signal_confidence : ℝ) : Except PyExn ℝ :=
  match ilocNeg1 df.close with
  | none => Except.error PyExn.indexError
  | some current_price =>
    if signal_strength < 0 then
      Except.ok ((calculate_fixed_position_size m : ℝ) / current_price)
    else
      Except.ok (dynamic_position_size_val m df signal_strength signal_confidence current_price)

end

/-! ## `src/adaptive_strategy.py`: data model -/

/-- The `MarketRegime` dataclass (lines 28-34).  The category fields are
Python strings; `detect_market_regime` only ever produces
`low/medium/high`, `bullish/bearish/ranging` and `low/normal/high`, but the
weight-adaptation rules compare against those literals and fire or not for
any string, so the embedding keeps `String`. -/
structure MarketRegime where
  volatility : String
  trend : String
  volume : String
  confidence : ℝ

/-- The per-component weight dictionary: `base_weights` / `current_weights`
(lines 75-86) always hold exactly these eight keys. -/
structure Weights where
  rsi : ℝ
  macd : ℝ
  bollinger : ℝ
  emaTrend : ℝ
  volume : ℝ
  stochastic : ℝ
  atr : ℝ
  mlPrediction : ℝ

/-- Sum of the eight weight entries (`sum(weights.values())`). -/
def Weights.total (w : Weights) : ℝ :=
  w.rsi + w.macd + w.bollinger + w.emaTrend + w.volume +
    w.stochastic + w.atr + w.mlPrediction

/-- `self.current_weights.get(name, 0)` (line 484). -/
def Weights.get (w : Weights) (name : String) : ℝ :=
  if name = "rsi" then w.rsi
  else if name = "macd" then w.macd
  else if name = "bollinger" then w.bollinger
  else if name = "ema_trend" then w.emaTrend
  else if name = "volume" then w.volume
  else if name = "stochastic" then w.stochastic
  else if name = "atr" then w.atr
  else if name = "ml_prediction" then w.mlPrediction
  else 0

/-- The `base_weights` dict set in `__init__` (lines 75-84); the only
configuration-dependent entry is `ml_prediction`. -/
def base_weights (ml_enabled : Bool) : Weights :=
  { rsi := 1, macd := 1.5, bollinger := 1.2, emaTrend := 1.3, volume := 1,
    stochastic := 0.8, atr := 0.7, mlPrediction := if ml_enabled then 2 else 0 }

/-- The constructor parameters of `AdaptiveStrategyEngine` (lines 53-72). -/
structure EngineConfig where
  baseRsiOversold : ℝ := 30
  baseRsiOverbought : ℝ := 70
  volatilityAdjustment : Bool := true
  mlEnabled : Bool := true

/-- The mutable attributes of `AdaptiveStrategyEngine` written by
`generate_ensemble_signal` (lines 86-87): `current_weights` and
`regime_history`. -/
structure EngineState where
  currentWeights : Weights
  regimeHistory : List MarketRegime

/-- The optional `ml_prediction` dict argument: `.get('signal', 0)` and
`.get('confidence', 0.5)` default missing keys.  `none` at the call site
stands for both `None` and the (falsy) empty dict. -/
structure MLPrediction where
  signal : Option ℝ
  confidence : Option ℝ

/-- One human-readable rationale string from the component calculators,
with the interpolated numeric values carried as fields (the f-string
templates themselves are injective per constructor). -/
inductive Reason where
  | rsiNotAvailable
  | rsiOversold (rsi oversold : ℝ)
  | rsiOverbought (rsi overbought : ℝ)
  | rsiNeutral (rsi : ℝ)
  | macdNotAvailable
  | macdBullishCrossover
  | macdBearishCrossover
  | macdBullish (diff : ℝ)
  | macdBearish (diff : ℝ)
  | bbNotAvailable
  | bbCollapsed
  | bbNearLower (position : ℝ)
  | bbNearUpper (position : ℝ)
  | bbBelowMiddle (position : ℝ)
  | bbAboveMiddle (position : ℝ)
  | bbMiddle (position : ℝ)
  | emaNotAvailable
  | emaBullishCrossover
  | emaBearishCrossover
  | emaBullish (diff_pct : ℝ)
  | emaBearish (diff_pct : ℝ)
  | volumeNotAvailable
  | noVolumeData
  | highVolumePriceUp (vratio : ℝ)
  | highVolumePriceDown (vratio : ℝ)
  | lowVolume (vratio : ℝ)
  | normalVolume (vratio : ℝ)
  | mlContribution (signal confidence : ℝ)
  | error (e : PyExn)

/-- The `AdaptiveSignal` dataclass (lines 37-45).  `components` is the
insertion-ordered `signals` dict; `reasoning` the `reasons` list. -/
structure AdaptiveSignal where
  action : String
  strength : ℝ
  confidence : ℝ
  regime : MarketRegime
  components : List (String × ℝ)
  reasoning : List Reason

/-- The DataFrame columns the strategy engine reads.  `close` is assumed
present (every caller builds it); the others are optional columns. -/
structure DFrame where
  close : List ℝ
  volume : Option (List ℝ) := none
  rsi : Option (List ℝ) := none
  macd : Option (List ℝ) := none
  macdSignal : Option (List ℝ) := none
  bbUpper : Option (List ℝ) := none
  bbMiddle : Option (List ℝ) := none
  bbLower : Option (List ℝ) := none
  ema12 : Option (List ℝ) := none
  ema26 : Option (List ℝ) := none
  atr : Option (List ℝ) := none

noncomputable section

/-- `series.rolling(20).mean().iloc[-1]`: mean of the last 20 values;
`none` models the NaN produced for fewer than 20 rows (every comparison
with it is `False` in Python).  The caller must separately guard the
`IndexError` of `iloc[-1]` on an empty series. -/
def rollingMean20 (l : List ℝ) : Option ℝ :=
  if l.length < 20 then none
  else some ((takeLast 20 l).sum / 20)

/-- The defined entries of `series.pct_change()`: entry `i ≥ 1` is
`l[i] / l[i-1] - 1` (the leading entry of the pandas series is NaN and is
dropped here; `skipna` aggregation ignores it anyway).  A zero previous
value gives ±inf/NaN in numpy; the model keeps `x / 0 = 0`, which no
claim's inputs exercise. -/
def pctChanges (l : List ℝ) : List ℝ :=
  List.zipWith (fun prev cur => cur / prev - 1) l l.tail

/-- `series.pct_change().iloc[-1]`; `none` models the NaN on a series of
fewer than two rows.  (The caller guards `iloc[-1]` on an empty series.) -/
def pctChangeLast (l : List ℝ) : Option ℝ :=
  match l.reverse with
  | cur :: prev :: _ => some (cur / prev - 1)
  | _ => none

/-- pandas `Series.std()` (sample standard deviation, `ddof = 1`,
NaN-skipping): `none` models the NaN returned for fewer than two values. -/
def sampleStd (l : List ℝ) : Option ℝ :=
  if l.length < 2 then none
  else
    let mean := l.sum / (l.length : ℝ)
    some (Real.sqrt ((l.map (fun x => (x - mean) ^ 2)).sum / ((l.length : ℝ) - 1)))

/-- `np.std` (population standard deviation, `ddof = 0`); only called on
nonempty lists. -/
def popStd (l : List ℝ) : ℝ :=
  let mean := l.sum / (l.length : ℝ)
  Real.sqrt ((l.map (fun x => (x - mean) ^ 2)).sum / (l.length : ℝ))

/-! ### Market regime detection (`detect_market_regime`, lines 89-186)

The whole body sits in a `try` whose handler returns the safe default
regime `('medium', 'ranging', 'normal', 0.5)`.  The sub-steps below return
`none` exactly where the Python body raises (an `iloc` on an empty
series). -/

/-- The volatility bucket (lines 100-120).  With the `atr` column present,
`avg_atr > 0` is `False` when the rolling mean is NaN, so the ratio
defaults to `1.0`; without `atr`, a NaN standard deviation fails both
threshold comparisons and lands in the `medium` branch. -/
def detect_volatility (df : DFrame) : Option String :=
  match df.atr with
  | some l =>
    match ilocNeg1 l with
    | none => none
    | some atr =>
      let volatility_ratio : ℝ :=
        match rollingMean20 l with
        | some avg_atr => if 0 < avg_atr then atr / avg_atr else 1
        | none => 1
      some (if 1.5 < volatility_ratio then "high"
            else if volatility_ratio < 0.7 then "low"
            else "medium")
  | none =>
    match sampleStd (takeLast 20 (pctChanges df.close)) with
    | some returns_std =>
      some (if 0.03 < returns_std then "high"
            else if returns_std < 0.01 then "low"
            else "medium")
    | none => some "medium"

/-- The trend bucket (lines 122-144).  When `ema_26` is zero the
`np.float64` division makes `ema_diff_pct` ±inf (NaN for a zero fast EMA),
which the threshold comparisons bucket as written below.  In the fallback,
a NaN 20-period SMA fails both comparisons and yields `ranging`. -/
def detect_trend (df : DFrame) : Option String :=
  match df.ema12, df.ema26 with
  | some l12, some l26 =>
    match ilocNeg1 l12, ilocNeg1 l26 with
    | some ema_fast, some ema_slow =>
      if ema_slow = 0 then
        some (if 0 < ema_fast then "bullish"
              else if ema_fast < 0 then "bearish"
              else "ranging")
      else
        let ema_diff_pct := (ema_fast - ema_slow) / ema_slow * 100
        some (if 2 < ema_diff_pct then "bullish"
              else if ema_diff_pct < -2 then "bearish"
              else "ranging")
    | _, _ => none
  | _, _ =>
    match ilocNeg1 df.close with
    | none => none
    | some current_price =>
      match rollingMean20 df.close with
      | some sma_20 =>
        some (if sma_20 * 1.02 < current_price then "bullish"
              else if current_price < sma_20 * 0.98 then "bearish"
              else "ranging")
      | none => some "ranging"

/-- The volume bucket (lines 146-159), mirroring the volatility-ratio
NaN handling. -/
def detect_volume_regime (df : DFrame) : Option String :=
  match df.volume with
  | some l =>
    match ilocNeg1 l with
    | none => none
    | some current_volume =>
      let volume_ratio : ℝ :=
        match rollingMean20 l with
        | some avg_volume => if 0 < avg_volume then current_volume / avg_volume else 1
        | none => 1
      some (if 1.5 < volume_ratio then "high"
            else if volume_ratio < 0.7 then "low"
            else "normal")
  | none => some "normal"

/-- The `try` body of `detect_market_regime`; `none` when it raises.
Confidence counts the available indicator columns
`['atr', 'ema_12', 'volume', 'rsi']` (lines 161-168). -/
def detect_body (df : DFrame) : Option MarketRegime := do
  let volatility ← detect_volatility df
  let trend ← detect_trend df
  let volume ← detect_volume_regime df
  let available : ℝ :=
    (if df.atr.isSome then 1 else 0) + (if df.ema12.isSome then 1 else 0) +
      (if df.volume.isSome then 1 else 0) + (if df.rsi.isSome then 1 else 0)
  pure { volatility := volatility, trend := trend, volume := volume,
         confidence := available / 4 }

/-- The regime `detect_market_regime` hands to the rest of the pipeline:
the computed classification, or the handler's safe default. -/
def regime_of (df : DFrame) : MarketRegime :=
  (detect_body df).getD
    { volatility := "medium", trend := "ranging", volume := "normal", confidence := 0.5 }

/-- `detect_market_regime` (lines 89-186) as a function of the history it
mutates: the returned pair is (new `regime_history`, returned regime).
The history is appended and trimmed to 100 only on success — an exception
skips the append, and the handler's default is not recorded. -/
def detect_market_regime (hist : List MarketRegime) (df : DFrame) :
    List MarketRegime × MarketRegime :=
  (match detect_body df with
   | some regime =>
     let h := hist ++ [regime]
     if 100 < h.length then takeLast 100 h else h
   | none => hist,
   regime_of df)

/-- `adjust_thresholds_for_volatility` (lines 188-217). -/
def adjust_thresholds_for_volatility (cfg : EngineConfig) (regime : MarketRegime) :
    ℝ × ℝ :=
  if cfg.volatilityAdjustment = false then
    (cfg.baseRsiOversold, cfg.baseRsiOverbought)
  else if regime.volatility = "high" then
    (max 20 (cfg.baseRsiOversold - 10), min 80 (cfg.baseRsiOverbought + 10))
  else if regime.volatility = "low" then
    (min 35 (cfg.baseRsiOversold + 5), max 65 (cfg.baseRsiOverbought - 5))
  else
    (cfg.baseRsiOversold, cfg.baseRsiOverbought)

/-! ### Weight adaptation (`adjust_weights_for_regime`, lines 219-261) -/

/-- The multiplicative regime rules applied to a copy of `base_weights`,
before normalization (lines 226-255). -/
def pre_regime_weights (cfg : EngineConfig) (regime : MarketRegime) : Weights :=
  let w := base_weights cfg.mlEnabled
  let w :=
    if regime.volatility = "high" then
      { w with macd := w.macd * 1.3, rsi := w.rsi * 0.8, bollinger := w.bollinger * 1.2 }
    else if regime.volatility = "low" then
      { w with rsi := w.rsi * 1.3, bollinger := w.bollinger * 1.4, macd := w.macd * 0.8 }
    else w
  let w :=
    if regime.trend = "bullish" ∨ regime.trend = "bearish" then
      { w with emaTrend := w.emaTrend * 1.4, macd := w.macd * 1.2 }
    else if regime.trend = "ranging" then
      { w with rsi := w.rsi * 1.3, stochastic := w.stochastic * 1.2 }
    else w
  if regime.volume = "high" then
    let w := { w with volume := w.volume * 1.5 }
    { w with rsi := w.rsi * 1.1, macd := w.macd * 1.1, bollinger := w.bollinger * 1.1,
             emaTrend := w.emaTrend * 1.1, stochastic := w.stochastic * 1.1,
             atr := w.atr * 1.1, mlPrediction := w.mlPrediction * 1.1 }
  else w

/-- The final normalization `{k: v / total_weight for k, v in weights.items()}`
(lines 257-259). -/
def normalize_weights (w : Weights) : Weights :=
  { rsi := w.rsi / w.total, macd := w.macd / w.total,
    bollinger := w.bollinger / w.total, emaTrend := w.emaTrend / w.total,
    volume := w.volume / w.total, stochastic := w.stochastic / w.total,
    atr := w.atr / w.total, mlPrediction := w.mlPrediction / w.total }

/-- `adjust_weights_for_regime` (lines 219-261): every matching rule is
applied, then the vector is normalized once. -/
def adjust_weights_for_regime (cfg : EngineConfig) (regime : MarketRegime) : Weights :=
  normalize_weights (pre_regime_weights cfg regime)

/-! ### Component signal calculators (lines 263-414)

Each returns the `(signal, reason)` pair, or the Python exception the body
raises (an `iloc` on a too-short series, or a missing `bb_middle` column);
those exceptions are caught only by `generate_ensemble_signal`'s outer
handler.  Divisions of DataFrame scalars are `np.float64` divisions; the
model's `x / 0 = 0` convention differs from numpy's ±inf only for
degenerate threshold configurations (`oversold = 0`, `overbought = 100`,
`overbought = oversold`) that no caller produces. -/

/-- `calculate_rsi_signal` (lines 263-287). -/
def calculate_rsi_signal (df : DFrame) (oversold overbought : ℝ) :
    Except PyExn (ℝ × Reason) :=
  match df.rsi with
  | none => Except.ok (0, Reason.rsiNotAvailable)
  | some l =>
    match ilocNeg1 l with
    | none => Except.error PyExn.indexError
    | some rsi =>
      if rsi < oversold then
        Except.ok ((oversold - rsi) / oversold, Reason.rsiOversold rsi oversold)
      else if overbought < rsi then
        Except.ok (-((rsi - overbought) / (100 - overbought)),
          Reason.rsiOverbought rsi overbought)
      else
        let mid := (oversold + overbought) / 2
        Except.ok ((mid - rsi) / (overbought - oversold) * 0.5, Reason.rsiNeutral rsi)

/-- `calculate_macd_signal` (lines 289-317). -/
def calculate_macd_signal (df : DFrame) : Except PyExn (ℝ × Reason) :=
  match df.macd, df.macdSignal with
  | some lm, some ls =>
    match ilocNeg1 lm, ilocNeg1 ls, ilocNeg2 lm, ilocNeg2 ls with
    | some macd, some macd_signal, some macd_prev, some signal_prev =>
      if macd_signal < macd ∧ macd_prev ≤ signal_prev then
        Except.ok (0.8, Reason.macdBullishCrossover)
      else if macd < macd_signal ∧ signal_prev ≤ macd_prev then
        Except.ok (-0.8, Reason.macdBearishCrossover)
      else if macd_signal < macd then
        let diff := |macd - macd_signal|
        Except.ok (min 0.6 (diff * 10), Reason.macdBullish diff)
      else
        let diff := |macd - macd_signal|
        Except.ok (-(min 0.6 (diff * 10)), Reason.macdBearish diff)
    | _, _, _, _ => Except.error PyExn.indexError
  | _, _ => Except.ok (0, Reason.macdNotAvailable)

/-- `calculate_bollinger_signal` (lines 319-352).  The presence check
covers only `bb_upper` and `bb_lower`; `bb_middle` is read (and discarded)
unconditionally, so its absence raises `KeyError`. -/
def calculate_bollinger_signal (df : DFrame) : Except PyExn (ℝ × Reason) :=
  match df.bbUpper, df.bbLower with
  | some lu, some ll =>
    match ilocNeg1 df.close with
    | none => Except.error PyExn.indexError
    | some close =>
      match ilocNeg1 lu with
      | none => Except.error PyExn.indexError
      | some bb_upper =>
        match df.bbMiddle with
        | none => Except.error PyExn.keyError
        | some lmid =>
          match ilocNeg1 lmid with
          | none => Except.error PyExn.indexError
          | some _bb_middle =>
            match ilocNeg1 ll with
            | none => Except.error PyExn.indexError
            | some bb_lower =>
              let bb_range := bb_upper - bb_lower
              if bb_range = 0 then Except.ok (0, Reason.bbCollapsed)
              else
                let position := (close - bb_lower) / bb_range
                if position < 0.2 then Except.ok (0.7, Reason.bbNearLower position)
                else if 0.8 < position then Except.ok (-0.7, Reason.bbNearUpper position)
                else if position < 0.4 then Except.ok (0.3, Reason.bbBelowMiddle position)
                else if 0.6 < position then Except.ok (-0.3, Reason.bbAboveMiddle position)
                else Except.ok (0, Reason.bbMiddle position)
  | _, _ => Except.ok (0, Reason.bbNotAvailable)

/-- `calculate_ema_trend_signal` (lines 354-382).  `close.iloc[-1]` is read
(and never used), so an empty `close` raises here too.  A zero slow EMA
makes the `np.float64` spread ±inf: `min(0.7, inf)` is `0.7` in the
bullish branch, and in the bearish branch both the +inf and the NaN case
of Python's `min` leave `0.7`, hence signal `-0.7`. -/
def calculate_ema_trend_signal (df : DFrame) : Except PyExn (ℝ × Reason) :=
  match df.ema12, df.ema26 with
  | some l12, some l26 =>
    match ilocNeg1 l12, ilocNeg1 l26, ilocNeg1 df.close with
    | some ema_fast, some ema_slow, some _close =>
      match ilocNeg2 l12, ilocNeg2 l26 with
      | some ema_fast_prev, some ema_slow_prev =>
        if ema_slow < ema_fast ∧ ema_fast_prev ≤ ema_slow_prev then
          Except.ok (0.9, Reason.emaBullishCrossover)
        else if ema_fast < ema_slow ∧ ema_slow_prev ≤ ema_fast_prev then
          Except.ok (-0.9, Reason.emaBearishCrossover)
        else if ema_slow < ema_fast then
          if ema_slow = 0 then Except.ok (0.7, Reason.emaBullish 0)
          else
            let diff_pct := (ema_fast - ema_slow) / ema_slow * 100
            Except.ok (min 0.7 (diff_pct / 5), Reason.emaBullish diff_pct)
        else
          if ema_slow = 0 then Except.ok (-0.7, Reason.emaBearish 0)
          else
            let diff_pct := (ema_slow - ema_fast) / ema_slow * 100
            Except.ok (-(min 0.7 (diff_pct / 5)), Reason.emaBearish diff_pct)
      | _, _ => Except.error PyExn.indexError
    | _, _, _ => Except.error PyExn.indexError
  | _, _ => Except.ok (0, Reason.emaNotAvailable)

/-- `calculate_volume_signal` (lines 384-414).  A NaN 20-period average
(fewer than 20 rows) skips the `avg_volume == 0` early return, makes the
ratio NaN, and falls through to the `normalVolume` branch (the NaN ratio
payload is recorded as `0` here); a NaN `price_change` (a single close
row) fails `price_change > 0` and takes the bearish branch. -/
def calculate_volume_signal (df : DFrame) : Except PyExn (ℝ × Reason) :=
  match df.volume with
  | none => Except.ok (0, Reason.volumeNotAvailable)
  | some lv =>
    match ilocNeg1 lv with
    | none => Except.error PyExn.indexError
    | some volume =>
      match rollingMean20 lv with
      | some avg_volume =>
        if avg_volume = 0 then Except.ok (0, Reason.noVolumeData)
        else
          let volume_ratio := volume / avg_volume
          match ilocNeg1 df.close with
          | none => Except.error PyExn.indexError
          | some _ =>
            let price_change := pctChangeLast df.close
            if 1.5 < volume_ratio then
              match price_change with
              | some pc =>
                if 0 < pc then
                  Except.ok (min 0.8 (volume_ratio * 0.3),
                    Reason.highVolumePriceUp volume_ratio)
                else
                  Except.ok (-(min 0.8 (volume_ratio * 0.3)),
                    Reason.highVolumePriceDown volume_ratio)
              | none =>
                Except.ok (-(min 0.8 (volume_ratio * 0.3)),
                  Reason.highVolumePriceDown volume_ratio)
            else if volume_ratio < 0.7 then
              Except.ok (0, Reason.lowVolume volume_ratio)
            else Except.ok (0, Reason.normalVolume volume_ratio)
      | none =>
        match ilocNeg1 df.close with
        | none => Except.error PyExn.indexError
        | some _ => Except.ok (0, Reason.normalVolume 0)

/-! ### Ensemble signal generation (`generate_ensemble_signal`, lines 416-531) -/

/-- The component loop of the `try` body (lines 441-477): the
insertion-ordered `signals` dict and the `reasons` list, or the first
exception raised. -/
def component_signals (cfg : EngineConfig) (regime : MarketRegime) (df : DFrame)
    (ml : Option MLPrediction) : Except PyExn (List (String × ℝ) × List Reason) :=
  let thresholds := adjust_thresholds_for_volatility cfg regime
  match calculate_rsi_signal df thresholds.1 thresholds.2 with
  | Except.error e => Except.error e
  | Except.ok rsi =>
    match calculate_macd_signal df with
    | Except.error e => Except.error e
    | Except.ok macd =>
      match calculate_bollinger_signal df with
      | Except.error e => Except.error e
      | Except.ok bb =>
        match calculate_ema_trend_signal df with
        | Except.error e => Except.error e
        | Except.ok ema =>
          match calculate_volume_signal df with
          | Except.error e => Except.error e
          | Except.ok vol =>
            match cfg.mlEnabled, ml with
            | true, some pred =>
              let ml_signal := pred.signal.getD 0
              let ml_confidence := pred.confidence.getD 0.5
              Except.ok ([("rsi", rsi.1), ("macd", macd.1), ("bollinger", bb.1),
                 ("ema_trend", ema.1), ("volume", vol.1),
                 ("ml_prediction", ml_signal * ml_confidence)],
                [rsi.2, macd.2, bb.2, ema.2, vol.2,
                 Reason.mlContribution ml_signal ml_confidence])
            | _, _ =>
              Except.ok ([("rsi", rsi.1), ("macd", macd.1), ("bollinger", bb.1),
                 ("ema_trend", ema.1), ("volume", vol.1), ("ml_prediction", 0)],
                [rsi.2, macd.2, bb.2, ema.2, vol.2])

/-- The weighted ensemble score (lines 479-489): `Σ signal·weight` divided
by the total weight of the components actually present, when positive. -/
def weighted_score_of (w : Weights) (signals : List (String × ℝ)) : ℝ :=
  let weighted_score := (signals.map (fun p => p.2 * w.get p.1)).sum
  let total_weight := (signals.map (fun p => w.get p.1)).sum
  if 0 < total_weight then weighted_score / total_weight else weighted_score

/-- The `try` body of `generate_ensemble_signal` after regime detection
(lines 436-520): weight adjustment, thresholds, components, score,
action thresholds and agreement-based confidence. -/
def ensemble_components (cfg : EngineConfig) (regime : MarketRegime) (df : DFrame)
    (ml : Option MLPrediction) : Except PyExn AdaptiveSignal :=
  let w := adjust_weights_for_regime cfg regime
  match component_signals cfg regime df ml with
  | Except.error e => Except.error e
  | Except.ok pair =>
    let strength := (weighted_score_of w pair.1 + 1) * 50
    let action := if 65 ≤ strength then "BUY" else if strength ≤ 35 then "SELL" else "HOLD"
    let signal_values := (pair.1.map Prod.snd).filter (fun s => s ≠ 0)
    let confidence : ℝ :=
      if signal_values.isEmpty then 0.5
      else max 0.5 (1 - popStd signal_values)
    Except.ok { action := action, strength := strength,
                confidence := confidence * regime.confidence, regime := regime,
                components := pair.1, reasoning := pair.2 }

/-- The `except` branch of `generate_ensemble_signal` (lines 522-531):
the most conservative signal, with an error rationale. -/
def error_signal (e : PyExn) : AdaptiveSignal :=
  { action := "HOLD", strength := 50, confidence := 0,
    regime := { volatility := "medium", trend := "ranging", volume := "normal",
                confidence := 0 },
    components := [], reasoning := [Reason.error e] }

/-- The signal value `generate_ensemble_signal` returns for a given
regime: the computed ensemble, or the handler's conservative default. -/
def ensemble_signal_of (cfg : EngineConfig) (regime : MarketRegime) (df : DFrame)
    (ml : Option MLPrediction) : AdaptiveSignal :=
  match ensemble_components cfg regime df ml with
  | Except.ok s => s
  | Except.error e => error_signal e

/-- `generate_ensemble_signal` (lines 416-531) as a state transformer on
the engine's mutable attributes.  `self.current_weights` is overwritten
from `base_weights` and the freshly detected regime before it is read, and
`regime_history` is append-only, so the returned signal is a function of
the configuration and the call's arguments alone. -/
def generate_ensemble_signal (cfg : EngineConfig) (st : EngineState) (df : DFrame)
    (ml : Option MLPrediction) : EngineState × AdaptiveSignal :=
  let hr := detect_market_regime st.regimeHistory df
  ({ currentWeights := adjust_weights_for_regime cfg hr.2, regimeHistory := hr.1 },
   ensemble_signal_of cfg hr.2 df ml)

end

/-! ## Concrete sample inputs for the witnesses and counterexamples -/

/-- A manager one bad day into trading: daily loss exactly 5% of the
daily-start capital, breaker clear. -/
def mkRiskC1 : RiskManager :=
  { initialCapital := 10000, currentCapital := 9500, peakCapital := 10000,
    dailyStartCapital := 10000 }

/-- The same book with the breaker freshly active until hour 24. -/
def mkRiskC1After : RiskManager :=
  { mkRiskC1 with circuitBreakerActive := true, circuitBreakerUntil := some 24 }

/-- A flat manager with the default 10% cap and quarter-Kelly fraction. -/
def mkRiskC8 : RiskManager :=
  { initialCapital := 10000, currentCapital := 10000, peakCapital := 10000,
    dailyStartCapital := 10000 }

/-- An open long position used by the entry-gating witness. -/
def mkPosC10 : Position :=
  { symbol := "BTC/USDT", side := "long", entryPrice := 50000, size := 1/100,
    stopLoss := 47500, takeProfit := [55000, 57500, 62500] }

/-- A healthy manager already holding `BTC/USDT`. -/
def mkRiskC10 : RiskManager :=
  { initialCapital := 10000, currentCapital := 10000, peakCapital := 10000,
    dailyStartCapital := 10000, positions := [("BTC/USDT", mkPosC10)] }

/-- The spec's stop/target scenario frame: last close 50000, ATR 1500. -/
def mkFrameC7 : PriceFrame := { close := [50000], atr := some [1500] }

/-- A long position at 3% unrealized profit whose trailing stop has not
yet been activated: stop 95, highest price seen 103. -/
def mkPosC6 : Position :=
  { symbol := "BTC/USDT", side := "long", entryPrice := 100, size := 1,
    stopLoss := 95, takeProfit := [], unrealizedPnl := 3,
    trailingStopActive := false, highestPrice := 103, lowestPrice := 100 }

/-- A manager holding `mkPosC6` with trailing stops enabled (1% trail). -/
def mkRiskC6 : RiskManager :=
  { initialCapital := 10000, currentCapital := 10000, peakCapital := 10000,
    dailyStartCapital := 10000, positions := [("BTC/USDT", mkPosC6)] }

/-- A flat manager used by the sizing witness (10% cap, 10000 capital). -/
def mkRiskC2 : RiskManager :=
  { initialCapital := 10000, currentCapital := 10000, peakCapital := 10000,
    dailyStartCapital := 10000 }

/-- A two-column frame with last close 100 and ATR 2. -/
def mkFrameC2 : PriceFrame := { close := [100], atr := some [2] }

/-- A flat manager for the error-containment theorems. -/
def mkRiskC5 : RiskManager :=
  { initialCapital := 10000, currentCapital := 10000, peakCapital := 10000,
    dailyStartCapital := 10000 }

/-- A malformed frame whose `close` column is empty. -/
def mkFrameC5 : PriceFrame := { close := [], atr := none }

/-- A healthy one-row frame with last close 100. -/
def mkFrameC5ok : PriceFrame := { close := [100], atr := none }

/-- A plain engine configuration without volatility adjustment or ML. -/
def mkCfgC5 : EngineConfig := { volatilityAdjustment := false, mlEnabled := false }

/-- The safe default regime at confidence 1/2. -/
noncomputable def mkRegimeC5 : MarketRegime :=
  { volatility := "medium", trend := "ranging", volume := "normal", confidence := 1/2 }

/-- A sparse strategy frame: empty `close`, and an `rsi` column that is
present but empty, so `df['rsi'].iloc[-1]` raises `IndexError`. -/
def mkDFrameC5 : DFrame := { close := [], rsi := some [] }

/-! ## Theorems -/

/-- `check_circuit_breaker` touches only the breaker fields of the
manager; capital figures and the position book pass through unchanged. -/
theorem check_circuit_breaker_preserves (m : RiskManager) (now : ℚ) :
    (check_circuit_breaker m now).1.currentCapital = m.currentCapital ∧
    (check_circuit_breaker m now).1.dailyStartCapital = m.dailyStartCapital ∧
    (check_circuit_breaker m now).1.peakCapital = m.peakCapital ∧
    (check_circuit_breaker m now).1.maxDailyLossPct = m.maxDailyLossPct ∧
    (check_circuit_breaker m now).1.maxDrawdownPct = m.maxDrawdownPct ∧
    (check_circuit_breaker m now).1.positions = m.positions := by
  unfold check_circuit_breaker activate_circuit_breaker
  dsimp only
  split
  · split
    · split_ifs <;> simp
    · simp
  · split_ifs <;> simp

/-- The daily-P&L and drawdown reads are invariant under the breaker
check's state update. -/
theorem check_circuit_breaker_metrics (m : RiskManager) (now : ℚ) :
    get_daily_pnl_pct (check_circuit_breaker m now).1 = get_daily_pnl_pct m ∧
    get_current_drawdown_pct (check_circuit_breaker m now).1 = get_current_drawdown_pct m := by
  obtain ⟨h1, h2, h3, _, _, _⟩ := check_circuit_breaker_preserves m now
  constructor
  · unfold get_daily_pnl_pct; rw [h1, h2]
  · unfold get_current_drawdown_pct; rw [h1, h3]

/-- C1: with the breaker clear and the daily P&L percentage at or below
minus the daily-loss limit (equality included), `check_circuit_breaker`
activates the breaker with the daily-loss reason and expiry `now + 24`
hours; and any `can_open_position` call on a manager whose breaker is
active with an unexpired deadline returns
`(False, "Circuit breaker active")`. -/
theorem c1_daily_loss_activates_breaker_and_blocks_entries
    (m : RiskManager) (now : ℚ) (m2 : RiskManager) (symbol : String) (now2 t : ℚ)
    (h1 : m.circuitBreakerActive = false)
    (h2 : get_daily_pnl_pct m ≤ -m.maxDailyLossPct)
    (h3 : m2.circuitBreakerActive = true)
    (h4 : m2.circuitBreakerUntil = some t)
    (h5 : now2 ≤ t) :
    check_circuit_breaker m now =
      ({ m with circuitBreakerActive := true, circuitBreakerUntil := some (now + 24) },
        true, some ("Daily loss limit reached", 24)) ∧
    (can_open_position m2 symbol now2).2 = (false, "Circuit breaker active") := by
  constructor
  · unfold check_circuit_breaker activate_circuit_breaker
    simp only [h1, Bool.false_eq_true, if_false, if_pos h2]
  · have hcheck : check_circuit_breaker m2 now2 = (m2, true, none) := by
      unfold check_circuit_breaker
      simp only [h3, h4, if_true, if_neg (not_lt.mpr h5)]
    unfold can_open_position
    rw [hcheck]
    simp

/-- C1 witness: daily loss exactly equal to the 5% limit activates the
breaker at `now = 0` until hour 24, and an entry request at the expiry
boundary hour 24 is still refused. -/
theorem c1_daily_loss_activates_breaker_and_blocks_entries_witness :
    ((mkRiskC1.circuitBreakerActive = false) ∧
      (get_daily_pnl_pct mkRiskC1 ≤ -mkRiskC1.maxDailyLossPct) ∧
      (mkRiskC1After.circuitBreakerActive = true) ∧
      (mkRiskC1After.circuitBreakerUntil = some 24) ∧
      ((24 : ℚ) ≤ 24)) ∧
    (check_circuit_breaker mkRiskC1 0 =
      ({ mkRiskC1 with circuitBreakerActive := true, circuitBreakerUntil := some (0 + 24) },
        true, some ("Daily loss limit reached", 24)) ∧
     (can_open_position mkRiskC1After "BTC/USDT" 24).2 = (false, "Circuit breaker active")) :=
  ⟨⟨rfl, by norm_num [get_daily_pnl_pct, mkRiskC1], rfl, rfl, le_refl 24⟩,
    c1_daily_loss_activates_breaker_and_blocks_entries mkRiskC1 0 mkRiskC1After
      "BTC/USDT" 24 24 rfl (by norm_num [get_daily_pnl_pct, mkRiskC1]) rfl rfl (le_refl 24)⟩

/-- C10: whenever a position is already open for the requested symbol or
five positions are already open, `can_open_position` refuses — and when
every capital and circuit-breaker gate passes, the refusal carries the
matching per-symbol / max-positions reason. -/
theorem c10_symbol_and_max_position_gates
    (m : RiskManager) (symbol : String) (now : ℚ)
    (h : (m.positions.lookup symbol).isSome = true ∨ 5 ≤ m.positions.length) :
    (can_open_position m symbol now).2.1 = false ∧
    ((check_circuit_breaker m now).2.1 = false →
      ¬ get_daily_pnl_pct m ≤ -m.maxDailyLossPct →
      ¬ m.maxDrawdownPct ≤ get_current_drawdown_pct m →
      (can_open_position m symbol now).2.2 =
        if (m.positions.lookup symbol).isSome then
          "Position already open for this symbol"
        else "Maximum 5 positions already open") := by
  obtain ⟨hcap, hdaily, hpeak, hml, hmd, hpos⟩ := check_circuit_breaker_preserves m now
  obtain ⟨hdm, hdd⟩ := check_circuit_breaker_metrics m now
  constructor
  · unfold can_open_position
    dsimp only
    split_ifs with h1 h2 h3 h4 h5
    · rfl
    · rfl
    · rfl
    · rfl
    · rfl
    · exfalso
      rw [hpos] at h4 h5
      rcases h with h | h
      · exact h4 h
      · exact h5 h
  · intro hc hd hw
    unfold can_open_position
    dsimp only
    rw [if_neg (by rw [hc]; simp)]
    rw [if_neg (by rw [hdm, hml]; exact hd), if_neg (by rw [hdd, hmd]; exact hw)]
    rw [hpos]
    split_ifs with h1 h2
    · rfl
    · rfl
    · exfalso
      rcases h with h | h
      · rw [Option.isSome_iff_exists] at h
        obtain ⟨v, hv⟩ := h
        rw [hv] at h1
        exact h1 rfl
      · exact h2 h

/-- C10 witness: a healthy manager already holding `BTC/USDT` refuses a
second entry for that symbol with the per-symbol reason. -/
theorem c10_symbol_and_max_position_gates_witness :
    ((mkRiskC10.positions.lookup "BTC/USDT").isSome = true ∨
      5 ≤ mkRiskC10.positions.length) ∧
    ((can_open_position mkRiskC10 "BTC/USDT" 0).2.1 = false ∧
      ((check_circuit_breaker mkRiskC10 0).2.1 = false →
        ¬ get_daily_pnl_pct mkRiskC10 ≤ -mkRiskC10.maxDailyLossPct →
        ¬ mkRiskC10.maxDrawdownPct ≤ get_current_drawdown_pct mkRiskC10 →
        (can_open_position mkRiskC10 "BTC/USDT" 0).2.2 =
          if (mkRiskC10.positions.lookup "BTC/USDT").isSome then
            "Position already open for this symbol"
          else "Maximum 5 positions already open")) :=
  ⟨Or.inl rfl, c10_symbol_and_max_position_gates mkRiskC10 "BTC/USDT" 0 (Or.inl rfl)⟩

/-- C7: entry 50000, ATR 1500, long side — the 2×ATR distance 3000 is
clamped to 5% of entry (2500), giving stop 47500, and the take-profit
levels are entry plus 2, 3 and 5 times that realized risk. -/
theorem c7_stop_loss_and_take_profit_scenario :
    calculate_stop_loss 50000 mkFrameC7 "long" = 47500 ∧
    calculate_take_profit_levels 50000 47500 "long" = [55000, 57500, 62500] := by
  constructor
  · norm_num [calculate_stop_loss, mkFrameC7, ilocNeg1, List.getLast?, min_def, max_def]
  · norm_num [calculate_take_profit_levels]

/-- C8 counterexample: `win_rate = 1` with ordinary win/loss averages is
not routed to the half-maximum fallback — the degenerate-input guard only
covers `avg_loss = 0` and `win_rate = 0` — so the Kelly percent is the
fully clamped 10, not 5. -/
theorem c8_win_rate_one_not_half_max :
    calculate_kelly_position_size mkRiskC8 1 100 50 = 10 ∧
    mkRiskC8.maxPositionSizePct / 2 = 5 ∧ (10 : ℚ) ≠ 5 := by
  refine ⟨?_, by norm_num [mkRiskC8], by norm_num⟩
  norm_num [calculate_kelly_position_size, mkRiskC8, min_def, max_def]

/-- C8 as amended: `avg_loss = 0` or `win_rate = 0` returns exactly half
the configured maximum; `win_rate = 1` with nonzero averages instead
returns the regular clamped fractional-Kelly value
`max 1 (min (kelly_fraction·100) max_pct)`; and no division error escapes
(the zero-average-win corner is absorbed into the final clamp). -/
theorem c8_kelly_degenerate_fallback
    (m : RiskManager) (win_rate avg_win avg_loss aw2 al2 : ℚ)
    (h : avg_loss = 0 ∨ win_rate = 0) (h2 : al2 ≠ 0) (h3 : aw2 ≠ 0) :
    calculate_kelly_position_size m win_rate avg_win avg_loss = m.maxPositionSizePct / 2 ∧
    calculate_kelly_position_size m 1 aw2 al2 =
      max 1 (min (m.kellyFraction * 100) m.maxPositionSizePct) := by
  constructor
  · unfold calculate_kelly_position_size
    rw [if_pos h]
  · unfold calculate_kelly_position_size
    rw [if_neg (by push_neg; exact ⟨h2, one_ne_zero⟩), if_neg h3]
    have hr : aw2 / al2 ≠ 0 := div_ne_zero h3 h2
    simp [mul_one, sub_self, div_self hr]

/-- C8 witness: `avg_loss = 0` at win rate 0.55 falls back to 5 (= 10/2),
while `win_rate = 1` with averages 100/50 is handled by the regular
clamped formula. -/
theorem c8_kelly_degenerate_fallback_witness :
    ((0 : ℚ) = 0 ∨ (55/100 : ℚ) = 0) ∧ (50 : ℚ) ≠ 0 ∧ (100 : ℚ) ≠ 0 ∧
    (calculate_kelly_position_size mkRiskC8 (55/100) 100 0 = mkRiskC8.maxPositionSizePct / 2 ∧
     calculate_kelly_position_size mkRiskC8 1 100 50 =
       max 1 (min (mkRiskC8.kellyFraction * 100) mkRiskC8.maxPositionSizePct)) :=
  ⟨Or.inl rfl, by norm_num, by norm_num,
    c8_kelly_degenerate_fallback mkRiskC8 (55/100) 100 0 100 50 (Or.inl rfl)
      (by norm_num) (by norm_num)⟩

/-- Looking up a key after rewriting its (first-match) entry in an
association list yields the rewritten value. -/
theorem lookup_map_update {β : Type} (k : String) (f : β → β) :
    ∀ (l : List (String × β)) (v : β), l.lookup k = some v →
      (l.map (fun q => if q.1 = k then (q.1, f q.2) else q)).lookup k = some (f v) := by
  intro l
  induction l with
  | nil => intro v h; simp [List.lookup] at h
  | cons a t ih =>
    intro v h
    by_cases hk : a.1 = k
    · have hbeq : (k == a.1) = true := by simp [hk]
      rw [List.lookup, hbeq] at h
      simp only [Option.some.injEq] at h
      simp only [List.map_cons, if_pos hk]
      rw [List.lookup, hbeq, h]
    · have hbeq : (k == a.1) = false := by simp [Ne.symm hk]
      rw [List.lookup, hbeq] at h
      simp only [List.map_cons, if_neg hk]
      rw [List.lookup, hbeq]
      exact ih v h

/-- C6 counterexample: a call made while the trailing stop is **inactive**
can still move the stop — the position sits at 3% profit, so the call
itself activates trailing and immediately lifts the stop from 95 to
101.97. -/
theorem c6_inactive_call_moves_stop :
    mkPosC6.trailingStopActive = false ∧
    ((update_trailing_stop mkRiskC6 "BTC/USDT" 103).1.positions.lookup "BTC/USDT").map
        Position.stopLoss = some (10197/100) ∧
    mkPosC6.stopLoss = 95 ∧ ((10197 : ℚ)/100) ≠ 95 := by
  refine ⟨rfl, ?_, rfl, by norm_num⟩
  norm_num [update_trailing_stop, trailing_step, mkRiskC6, mkPosC6,
    Position.get_pnl_pct, List.lookup]

/-- C6 as amended: per `update_trailing_stop` call, a long position's stop
is non-decreasing and a non-long (short) position's stop is
non-increasing; and a call during which the trailing stop stays inactive
(profit below the 2% activation threshold) leaves the position untouched.
A call that finds the stop inactive at ≥ 2% profit activates trailing and
may already move the stop within that same call. -/
theorem c6_trailing_stop_monotone (m : RiskManager) (symbol : String) (price : ℚ)
    (pos : Position)
    (h : m.positions.lookup symbol = some pos) (h2 : m.enableTrailingStop = true) :
    ((update_trailing_stop m symbol price).1.positions.lookup symbol).map
        Position.stopLoss = some (trailing_step m pos).1.stopLoss ∧
    (pos.side = "long" → pos.stopLoss ≤ (trailing_step m pos).1.stopLoss) ∧
    (¬pos.side = "long" → (trailing_step m pos).1.stopLoss ≤ pos.stopLoss) ∧
    (pos.trailingStopActive = false → pos.get_pnl_pct < 2 →
      (trailing_step m pos).1 = pos) := by
  refine ⟨?_, ?_, ?_, ?_⟩
  · unfold update_trailing_stop
    rw [h, h2]
    have hl := lookup_map_update symbol (fun _ => (trailing_step m pos).1)
      m.positions pos h
    rw [hl]
    rfl
  · intro hside
    unfold trailing_step
    split_ifs <;> simp_all <;> split_ifs <;> simp_all <;> linarith
  · intro hside
    unfold trailing_step
    split_ifs <;> simp_all <;> split_ifs <;> simp_all <;> linarith
  · intro hact hpnl
    unfold trailing_step
    have hcond : ¬(¬pos.trailingStopActive = true ∧ 2 ≤ pos.get_pnl_pct) := by
      intro hc; linarith [hc.2]
    rw [if_neg hcond, if_neg (by simp [hact])]

/-- C6 witness: at 3% profit the activating call lifts the long stop from
95 to 101.97 — non-decreasing as required. -/
theorem c6_trailing_stop_monotone_witness :
    (mkRiskC6.positions.lookup "BTC/USDT" = some mkPosC6) ∧
    (mkRiskC6.enableTrailingStop = true) ∧
    (((update_trailing_stop mkRiskC6 "BTC/USDT" 103).1.positions.lookup "BTC/USDT").map
        Position.stopLoss = some (trailing_step mkRiskC6 mkPosC6).1.stopLoss ∧
      (mkPosC6.side = "long" → mkPosC6.stopLoss ≤ (trailing_step mkRiskC6 mkPosC6).1.stopLoss) ∧
      (¬mkPosC6.side = "long" → (trailing_step mkRiskC6 mkPosC6).1.stopLoss ≤ mkPosC6.stopLoss) ∧
      (mkPosC6.trailingStopActive = false → mkPosC6.get_pnl_pct < 2 →
        (trailing_step mkRiskC6 mkPosC6).1 = mkPosC6)) :=
  ⟨by simp [mkRiskC6, List.lookup], rfl,
    c6_trailing_stop_monotone mkRiskC6 "BTC/USDT" 103 mkPosC6
      (by simp [mkRiskC6, List.lookup]) rfl⟩

/-- C2: with a readable positive last close, non-negative capital, a cap of
at least 1% (so the clamp interval is non-empty), strength in [0,100] and
confidence in [0,1], `calculate_dynamic_position_size` succeeds and its
size is non-negative, worth at most `max_position_size_pct`% of capital at
the current price, and at least 1% of capital divided by price. -/
theorem c2_dynamic_position_size_bounds (m : RiskManager) (df : PriceFrame)
    (s c p : ℝ)
    (hp : ilocNeg1 df.close = some p) (hp0 : 0 < p)
    (hcap : 0 ≤ m.currentCapital) (hmax : 1 ≤ m.maxPositionSizePct)
    (hs0 : 0 ≤ s) (hs1 : s ≤ 100) (hc0 : 0 ≤ c) (hc1 : c ≤ 1) :
    calculate_dynamic_position_size m df s c =
      Except.ok (dynamic_position_size_val m df s c p) ∧
    0 ≤ dynamic_position_size_val m df s c p ∧
    dynamic_position_size_val m df s c p * p ≤
      (m.maxPositionSizePct : ℝ) / 100 * (m.currentCapital : ℝ) ∧
    (m.currentCapital : ℝ) * 0.01 / p ≤ dynamic_position_size_val m df s c p := by
  have hcapR : (0 : ℝ) ≤ (m.currentCapital : ℝ) := by exact_mod_cast hcap
  have hmaxR : (1 : ℝ) ≤ (m.maxPositionSizePct : ℝ) := by exact_mod_cast hmax
  have hok : calculate_dynamic_position_size m df s c =
      Except.ok (dynamic_position_size_val m df s c p) := by
    unfold calculate_dynamic_position_size
    rw [hp]
    dsimp only
    rw [if_neg (not_lt.mpr hs0)]
  obtain ⟨X, hX⟩ : ∃ X, dynamic_position_size_val m df s c p =
      max ((m.currentCapital : ℝ) * 0.01 / p)
        (min X ((m.currentCapital : ℝ) * (m.maxPositionSizePct : ℝ) / 100 / p)) :=
    ⟨_, rfl⟩
  have hab : (m.currentCapital : ℝ) * 0.01 / p ≤
      (m.currentCapital : ℝ) * (m.maxPositionSizePct : ℝ) / 100 / p := by
    gcongr
    nlinarith
  have hlow : (m.currentCapital : ℝ) * 0.01 / p ≤ dynamic_position_size_val m df s c p := by
    rw [hX]; exact le_max_left _ _
  have hnn : (0 : ℝ) ≤ dynamic_position_size_val m df s c p := by
    refine le_trans ?_ hlow
    positivity
  have hup : dynamic_position_size_val m df s c p ≤
      (m.currentCapital : ℝ) * (m.maxPositionSizePct : ℝ) / 100 / p := by
    rw [hX]; exact max_le hab (min_le_right _ _)
  have hupP := mul_le_mul_of_nonneg_right hup hp0.le
  rw [div_mul_cancel₀ _ (ne_of_gt hp0)] at hupP
  have hrw : (m.currentCapital : ℝ) * (m.maxPositionSizePct : ℝ) / 100 =
      (m.maxPositionSizePct : ℝ) / 100 * (m.currentCapital : ℝ) := by ring
  rw [hrw] at hupP
  exact ⟨hok, hnn, hupP, hlow⟩

/-- C2 witness: at close 100, strength 50 and confidence 1/2, the sizing
call succeeds and the clamp bounds hold for the 10000-capital manager. -/
theorem c2_dynamic_position_size_bounds_witness :
    (ilocNeg1 mkFrameC2.close = some 100) ∧ ((0 : ℝ) < 100) ∧
    ((0 : ℚ) ≤ mkRiskC2.currentCapital) ∧ ((1 : ℚ) ≤ mkRiskC2.maxPositionSizePct) ∧
    ((0 : ℝ) ≤ 50) ∧ ((50 : ℝ) ≤ 100) ∧ ((0 : ℝ) ≤ 1/2) ∧ ((1/2 : ℝ) ≤ 1) ∧
    (calculate_dynamic_position_size mkRiskC2 mkFrameC2 50 (1/2) =
        Except.ok (dynamic_position_size_val mkRiskC2 mkFrameC2 50 (1/2) 100) ∧
      0 ≤ dynamic_position_size_val mkRiskC2 mkFrameC2 50 (1/2) 100 ∧
      dynamic_position_size_val mkRiskC2 mkFrameC2 50 (1/2) 100 * 100 ≤
        (mkRiskC2.maxPositionSizePct : ℝ) / 100 * (mkRiskC2.currentCapital : ℝ) ∧
      (mkRiskC2.currentCapital : ℝ) * 0.01 / 100 ≤
        dynamic_position_size_val mkRiskC2 mkFrameC2 50 (1/2) 100) :=
  ⟨rfl, by norm_num, by norm_num [mkRiskC2], by norm_num [mkRiskC2],
    by norm_num, by norm_num, by norm_num, by norm_num,
    c2_dynamic_position_size_bounds mkRiskC2 mkFrameC2 50 (1/2) 100 rfl
      (by norm_num) (by norm_num [mkRiskC2]) (by norm_num [mkRiskC2])
      (by norm_num) (by norm_num) (by norm_num) (by norm_num)⟩

/-- C5 counterexample: an exception does escape
`calculate_dynamic_position_size`.  On a frame with an empty `close`
column the body raises `IndexError` reading the last close, and the
`except` handler performs the same read and re-raises. -/
theorem c5_sizing_exception_escapes :
    calculate_dynamic_position_size mkRiskC5 mkFrameC5 50 (1/2) =
      Except.error PyExn.indexError := rfl

/-- C5 as amended: an internal failure in `generate_ensemble_signal` is
converted to exactly the conservative
`{HOLD, strength 50, confidence 0, error reasoning}` signal; but an
internal failure in `calculate_dynamic_position_size` yields the *fixed*
position size divided by the last close — not zero — and when the last
close itself cannot be read, the exception escapes the handler too. -/
theorem c5_error_containment (cfg : EngineConfig) (regime : MarketRegime)
    (df : DFrame) (ml : Option MLPrediction) (e : PyExn)
    (m : RiskManager) (pf : PriceFrame) (s c p : ℝ)
    (m2 : RiskManager) (pf2 : PriceFrame) (s2 c2 : ℝ)
    (h1 : ensemble_components cfg regime df ml = Except.error e)
    (h2 : ilocNeg1 pf.close = some p) (h3 : s < 0)
    (h4 : ilocNeg1 pf2.close = none) :
    ensemble_signal_of cfg regime df ml =
      { action := "HOLD", strength := 50, confidence := 0,
        regime := { volatility := "medium", trend := "ranging", volume := "normal",
                    confidence := 0 },
        components := [], reasoning := [Reason.error e] } ∧
    calculate_dynamic_position_size m pf s c =
      Except.ok ((calculate_fixed_position_size m : ℝ) / p) ∧
    calculate_dynamic_position_size m2 pf2 s2 c2 = Except.error PyExn.indexError := by
  refine ⟨?_, ?_, ?_⟩
  · unfold ensemble_signal_of
    rw [h1]
    rfl
  · unfold calculate_dynamic_position_size
    rw [h2]
    dsimp only
    rw [if_pos h3]
  · unfold calculate_dynamic_position_size
    rw [h4]

/-- C5 witness: a present-but-empty `rsi` column makes the ensemble body
raise and degrade to the exact conservative signal, a negative strength
trips the complex-power `TypeError` whose handler returns fixed-size /
close, and an empty `close` column lets the `IndexError` escape sizing. -/
theorem c5_error_containment_witness :
    (ensemble_components mkCfgC5 mkRegimeC5 mkDFrameC5 none =
      Except.error PyExn.indexError) ∧
    (ilocNeg1 mkFrameC5ok.close = some 100) ∧ ((-1 : ℝ) < 0) ∧
    (ilocNeg1 mkFrameC5.close = (none : Option ℝ)) ∧
    (ensemble_signal_of mkCfgC5 mkRegimeC5 mkDFrameC5 none =
      { action := "HOLD", strength := 50, confidence := 0,
        regime := { volatility := "medium", trend := "ranging", volume := "normal",
                    confidence := 0 },
        components := [], reasoning := [Reason.error PyExn.indexError] } ∧
     calculate_dynamic_position_size mkRiskC5 mkFrameC5ok (-1) (1/2) =
       Except.ok ((calculate_fixed_position_size mkRiskC5 : ℝ) / 100) ∧
     calculate_dynamic_position_size mkRiskC5 mkFrameC5 50 (1/2) =
       Except.error PyExn.indexError) :=
  ⟨rfl, rfl, by norm_num, rfl,
    c5_error_containment mkCfgC5 mkRegimeC5 mkDFrameC5 none PyExn.indexError
      mkRiskC5 mkFrameC5ok (-1) (1/2) 100 mkRiskC5 mkFrameC5 50 (1/2)
      rfl rfl (by norm_num) rfl⟩

/-- Every pre-normalization weight produced by the regime rules is
positive (non-negative for the ML entry, which is `0` when ML is
disabled): the base entries are positive literals and every rule
multiplier is positive. -/
theorem pre_regime_weights_pos (cfg : EngineConfig) (regime : MarketRegime) :
    0 < (pre_regime_weights cfg regime).rsi ∧
    0 < (pre_regime_weights cfg regime).macd ∧
    0 < (pre_regime_weights cfg regime).bollinger ∧
    0 < (pre_regime_weights cfg regime).emaTrend ∧
    0 < (pre_regime_weights cfg regime).volume ∧
    0 < (pre_regime_weights cfg regime).stochastic ∧
    0 < (pre_regime_weights cfg regime).atr ∧
    0 ≤ (pre_regime_weights cfg regime).mlPrediction := by
  unfold pre_regime_weights base_weights
  cases cfg.mlEnabled <;> split_ifs <;> norm_num

/-- C3: for every market regime (any combination of category values), the
weight vector after `adjust_weights_for_regime` — all rules applied, then
one normalization — has only non-negative entries and sums to 1 within
the 1e-9 tolerance. -/
theorem c3_adjusted_weights_normalized (cfg : EngineConfig) (regime : MarketRegime) :
    (0 ≤ (adjust_weights_for_regime cfg regime).rsi ∧
     0 ≤ (adjust_weights_for_regime cfg regime).macd ∧
     0 ≤ (adjust_weights_for_regime cfg regime).bollinger ∧
     0 ≤ (adjust_weights_for_regime cfg regime).emaTrend ∧
     0 ≤ (adjust_weights_for_regime cfg regime).volume ∧
     0 ≤ (adjust_weights_for_regime cfg regime).stochastic ∧
     0 ≤ (adjust_weights_for_regime cfg regime).atr ∧
     0 ≤ (adjust_weights_for_regime cfg regime).mlPrediction) ∧
    |Weights.total (adjust_weights_for_regime cfg regime) - 1| ≤ 1 / 1000000000 := by
  obtain ⟨h1, h2, h3, h4, h5, h6, h7, h8⟩ := pre_regime_weights_pos cfg regime
  have htot : 0 < (pre_regime_weights cfg regime).total := by
    unfold Weights.total; linarith
  unfold adjust_weights_for_regime
  constructor
  · unfold normalize_weights
    exact ⟨div_nonneg h1.le htot.le, div_nonneg h2.le htot.le,
      div_nonneg h3.le htot.le, div_nonneg h4.le htot.le,
      div_nonneg h5.le htot.le, div_nonneg h6.le htot.le,
      div_nonneg h7.le htot.le, div_nonneg h8 htot.le⟩
  · have hsum : Weights.total (normalize_weights (pre_regime_weights cfg regime)) = 1 := by
      unfold normalize_weights Weights.total
      dsimp only
      rw [div_add_div_same, div_add_div_same, div_add_div_same, div_add_div_same,
        div_add_div_same, div_add_div_same, div_add_div_same]
      exact div_self (ne_of_gt htot)
    rw [hsum]
    norm_num

/-- C9: the ensemble signal is a function of the configuration, the
DataFrame and the ML prediction alone — two calls with identical inputs
return identical signals (action, strength, confidence, regime,
components and reasoning) regardless of the engine's accumulated
`current_weights` / `regime_history` state. -/
theorem c9_ensemble_signal_state_independent (cfg : EngineConfig)
    (s1 s2 : EngineState) (df : DFrame) (ml : Option MLPrediction) :
    (generate_ensemble_signal cfg s1 df ml).2 = (generate_ensemble_signal cfg s2 df ml).2 :=
  rfl

/-- C4: the returned action is `BUY` exactly when strength ≥ 65, `SELL`
exactly when strength ≤ 35 and `HOLD` otherwise — also on the degraded
error path, whose strength 50 falls in the `HOLD` band — and on every
evaluation that completes without an internal exception the strength is
`(weighted score + 1) × 50`. -/
theorem c4_action_thresholds (cfg : EngineConfig) (st : EngineState) (df : DFrame)
    (ml : Option MLPrediction) :
    (((generate_ensemble_signal cfg st df ml).2.action = "BUY" ↔
        65 ≤ (generate_ensemble_signal cfg st df ml).2.strength) ∧
     ((generate_ensemble_signal cfg st df ml).2.action = "SELL" ↔
        (generate_ensemble_signal cfg st df ml).2.strength ≤ 35) ∧
     ((generate_ensemble_signal cfg st df ml).2.action = "HOLD" ↔
        (35 < (generate_ensemble_signal cfg st df ml).2.strength ∧
         (generate_ensemble_signal cfg st df ml).2.strength < 65))) ∧
    (ensemble_components cfg (regime_of df) df ml).map AdaptiveSignal.strength =
      (component_signals cfg (regime_of df) df ml).map
        (fun pair =>
          (weighted_score_of (adjust_weights_for_regime cfg (regime_of df)) pair.1 + 1) * 50) := by
  have hgen : (generate_ensemble_signal cfg st df ml).2 =
      ensemble_signal_of cfg (regime_of df) df ml := rfl
  rw [hgen]
  constructor
  · unfold ensemble_signal_of ensemble_components
    cases hcs : component_signals cfg (regime_of df) df ml with
    | error e =>
      dsimp only [error_signal]
      refine ⟨iff_of_false (by decide) (by norm_num),
        iff_of_false (by decide) (by norm_num),
        iff_of_true rfl (by norm_num)⟩
    | ok pair =>
      dsimp only
      split_ifs with h65 h35
      · exact ⟨iff_of_true rfl h65,
          iff_of_false (by decide) (by linarith),
          iff_of_false (by decide) (by rintro ⟨-, hlt⟩; linarith)⟩
      · exact ⟨iff_of_false (by decide) h65,
          iff_of_true rfl h35,
          iff_of_false (by decide) (by rintro ⟨hgt, -⟩; linarith)⟩
      · exact ⟨iff_of_false (by decide) h65,
          iff_of_false (by decide) h35,
          iff_of_true rfl ⟨lt_of_not_le h35, lt_of_not_le h65⟩⟩
  · unfold ensemble_components
    cases hcs : component_signals cfg (regime_of df) df ml with
    | error e => rfl
    | ok pair => rfl

end TradingBot
